import Mathlib

/-!
Verification of the Agon VDP buffered-command and audio subsystems
(`vdu_buffered.h`, `vdu_audio.h`): a shallow embedding of the buffer
store, the byte-stream parsing and the command handlers, with theorems
about their behaviour.  Machine integers are modelled as `Nat`/`Int`
with explicit reductions mod 256 / 65536 where the code truncates;
fallible stream reads (which return `-1` in the code) are modelled
with `Option`.
-/

/-- A stored stream of bytes (`BufferStream` / `WritableBufferStream`
in the source); `writable` mirrors `isWritable()`. -/
structure BufferStream where
  data : List Nat
  writable : Bool
deriving DecidableEq, Repr

/-- Size of a block, as `BufferStream::size()`. -/
def BufferStream.size (b : BufferStream) : Nat := b.data.length

/-- A buffer: the ordered list of blocks stored against one id. -/
abbrev Buffer := List BufferStream

/-- The buffer store `buffers`, mapping a 16-bit id to its block list;
`none` means the id is absent from the map. -/
abbrev BufferStore := Nat → Option Buffer

/-- Pointwise update of the store. -/
def setStore (store : BufferStore) (id : Nat) (b : Option Buffer) : BufferStore :=
  fun i => if i = id then b else store i

/-- Model of `readByte_t`: take one byte off the input stream; a
failed read (`-1` in the source) is `none`. -/
def readByte_t : List Nat → Option (Nat × List Nat)
  | [] => none
  | b :: rest => some (b, rest)

/-- Model of `readWord_t`: two bytes, little-endian. -/
def readWord_t (s : List Nat) : Option (Nat × List Nat) :=
  match readByte_t s with
  | none => none
  | some (lo, s1) =>
    match readByte_t s1 with
    | none => none
    | some (hi, s2) => some (lo + 256 * hi, s2)

/-- Model of `read24_t`: three bytes, little-endian. -/
def read24_t (s : List Nat) : Option (Nat × List Nat) :=
  match readByte_t s with
  | none => none
  | some (b0, s1) =>
    match readByte_t s1 with
    | none => none
    | some (b1, s2) =>
      match readByte_t s2 with
      | none => none
      | some (b2, s3) => some (b0 + 256 * b1 + 65536 * b2, s3)

/-- An `AdvancedOffset` into a segmented buffer, as in the source:
a byte offset plus a block index. -/
structure AdvancedOffset where
  blockOffset : Nat
  blockIndex : Nat
deriving DecidableEq, Repr

/-- One structural unrolling of the offset-normalisation loop; the
`fuel` argument only bounds the iteration count (each pass increments
`blockIndex`, so `buffer.length + 1 - blockIndex` passes always reach
the loop's exit condition). -/
def normalizeOffsetFuel : Nat → Buffer → AdvancedOffset → AdvancedOffset
  | 0, _, o => o
  | Nat.succ n, buffer, o =>
    if h : o.blockIndex < buffer.length then
      let sz := (buffer.get ⟨o.blockIndex, h⟩).size
      if sz ≤ o.blockOffset then
        normalizeOffsetFuel n buffer ⟨o.blockOffset - sz, o.blockIndex + 1⟩
      else o
    else o

/-- Normalisation loop shared by `getBufferByte` and `setBufferByte`:
while the offset exceeds the current block's size, move to the next
block. -/
def normalizeOffset (buffer : Buffer) (o : AdvancedOffset) : AdvancedOffset :=
  normalizeOffsetFuel (buffer.length + 1 - o.blockIndex) buffer o

/-- Model of `getBufferByte`: normalise the offset, return the byte at
it (or `-1` when the offset is past the end of the buffer), optionally
advancing the offset by one.  The returned offset is the normalised,
possibly advanced one (the source mutates `offset` by reference). -/
def getBufferByte (buffer : Buffer) (o : AdvancedOffset) (iterate : Bool := false) :
    Int × AdvancedOffset :=
  let o := normalizeOffset buffer o
  if h : o.blockIndex < buffer.length then
    let value := (buffer.get ⟨o.blockIndex, h⟩).data.getD o.blockOffset 0
    ((value : Int), if iterate then ⟨o.blockOffset + 1, o.blockIndex⟩ else o)
  else (-1, o)

/-- Model of `setBufferByte`: normalise the offset and write the byte;
`none` means the offset was out of range and nothing was written
(the source returns `false`). -/
def setBufferByte (value : Nat) (buffer : Buffer) (o : AdvancedOffset)
    (iterate : Bool := false) : Option Buffer × AdvancedOffset :=
  let o := normalizeOffset buffer o
  if h : o.blockIndex < buffer.length then
    let block := buffer.get ⟨o.blockIndex, h⟩
    let buffer := buffer.set o.blockIndex { block with data := block.data.set o.blockOffset value }
    (some buffer, if iterate then ⟨o.blockOffset + 1, o.blockIndex⟩ else o)
  else (none, o)

/-- Model of `bufferWrite` (`vdu_buffered.h` lines 210-231): read
`length` bytes from the input stream into a fresh block.  On a partial
read the remaining count is returned and the block is discarded; on
success, if the id is not the reserved 65535, the block is appended to
`buffers[id]`.  Returns (remaining, new store). -/
def bufferWrite (store : BufferStore) (bufferId : Nat) (length : Nat)
    (stream : List Nat) : Nat × BufferStore :=
  let remaining := length - stream.length
  if 0 < remaining then
    (remaining, store)
  else if bufferId = 65535 then
    (remaining, store)
  else
    (remaining, setStore store bufferId
      (some (((store bufferId).getD []) ++ [⟨stream.take length, false⟩])))

/-- Model of `bufferCreate` (`vdu_buffered.h` lines 293-310): refuse id
65535 and existing ids; otherwise install a single fresh writable block.
The freshly allocated memory is not cleared by `bufferCreate` itself, so
its contents `junk` are a parameter of the model.  Returns the created
block (the source returns a shared reference to it) and the new store. -/
def bufferCreate (junk : List Nat) (store : BufferStore) (bufferId : Nat) :
    Option BufferStream × BufferStore :=
  if bufferId = 65535 then
    (none, store)
  else if (store bufferId).isSome then
    (none, store)
  else
    let block : BufferStream := ⟨junk, true⟩
    (some block, setStore store bufferId (some [block]))

/-- Model of the `BUFFERED_CREATE` case of `vdu_sys_buffered`
(`vdu_buffered.h` lines 33-40): read the size, call `bufferCreate`, and
on success zero the first `size` bytes of the new block with `memset`. -/
def vduBufferedCreate (junk : List Nat) (store : BufferStore) (bufferId : Nat)
    (stream : List Nat) : BufferStore :=
  match readWord_t stream with
  | none => store
  | some (size, _) =>
    match bufferCreate junk store bufferId with
    | (none, store1) => store1
    | (some _, store1) =>
      setStore store1 bufferId (some [⟨List.replicate size 0, true⟩])

/-- The output-stream target of the processor: no output, the original
(serial) output, or a writable block. -/
inductive OutStream where
  | none
  | original
  | block (b : BufferStream)
deriving DecidableEq, Repr

/-- The part of the processor state that `setOutputStream` touches. -/
structure OutputState where
  output : OutStream
  originalOutput : OutStream
  buffers : BufferStore

/-- Model of `setOutputStream` (`vdu_buffered.h` lines 317-339):
id 65535 clears the output, id 0 restores the original output, any
other id redirects output to the first block of that buffer provided
the buffer exists, is non-empty and its first block is writable;
otherwise the output is left unchanged. -/
def setOutputStream (st : OutputState) (bufferId : Nat) : OutputState :=
  if bufferId = 65535 then
    { st with output := OutStream.none }
  else if bufferId = 0 then
    { st with output := st.originalOutput }
  else
    match st.buffers bufferId with
    | Option.none => st
    | some [] => st
    | some (b :: _) =>
      if b.writable then { st with output := OutStream.block b } else st

/-- An audio sample as stored in `samples`: its own shared references
to the blocks it was created from, plus playback metadata (only the
block references matter for the claims below). -/
structure AudioSampleM where
  blocks : List BufferStream
deriving DecidableEq, Repr

/-- The stores touched by `bufferClear`: the buffer store together
with the bitmap and sample collaborators. -/
structure ClearState where
  buffers : BufferStore
  bitmaps : Nat → Option Unit
  samples : Nat → Option AudioSampleM

/-- Modelled from the spec: `resetSamples` (declared outside the given
sources) drops all samples, as stated in the spec's cancellation rules
for `clear(65535)`. -/
def resetSamples (_ : Nat → Option AudioSampleM) : Nat → Option AudioSampleM :=
  fun _ => none

/-- Modelled from the spec: `resetBitmaps` (declared outside the given
sources) resets the bitmap collaborator, dropping all bitmaps. -/
def resetBitmaps (_ : Nat → Option Unit) : Nat → Option Unit :=
  fun _ => none

/-- Modelled from the spec: `clearSample id` (declared outside the
given sources) clears the sample stored for that specific id. -/
def clearSample (samples : Nat → Option AudioSampleM) (id : Nat) :
    Nat → Option AudioSampleM :=
  fun i => if i = id then none else samples i

/-- Modelled from the spec: `clearBitmap id` (declared outside the
given sources) clears the bitmap stored for that specific id. -/
def clearBitmap (bitmaps : Nat → Option Unit) (id : Nat) : Nat → Option Unit :=
  fun i => if i = id then none else bitmaps i

/-- Model of `bufferClear` (`vdu_buffered.h` lines 271-288): id 65535
clears the whole store and resets the bitmap and sample collaborators;
any other id removes that buffer if present and clears the bitmap and
sample stored under the same id. -/
def bufferClear (st : ClearState) (bufferId : Nat) : ClearState :=
  if bufferId = 65535 then
    { buffers := fun _ => none
      bitmaps := resetBitmaps st.bitmaps
      samples := resetSamples st.samples }
  else
    match st.buffers bufferId with
    | none => st
    | some _ =>
      { buffers := setStore st.buffers bufferId none
        bitmaps := clearBitmap st.bitmaps bufferId
        samples := clearSample st.samples bufferId }

/-- The per-channel playback state, from the spec's state machine. -/
inductive ChannelState where
  | Disabled
  | Idle
  | Playing
  | Releasing
deriving DecidableEq, Repr

/-- Modelled from the spec: `channelEnabled` (declared outside the
given sources) holds for every state of an enabled channel. -/
def channelEnabled (st : ChannelState) : Bool :=
  st ≠ ChannelState.Disabled

/-- Modelled from the spec: `audioTaskKill` (declared outside the given
sources) cancels the current note and any envelope in progress, leaving
an enabled channel idle; it does not enable a disabled channel. -/
def audioTaskKill (st : ChannelState) : ChannelState :=
  match st with
  | ChannelState.Playing => ChannelState.Idle
  | ChannelState.Releasing => ChannelState.Idle
  | s => s

/-- Modelled from the spec: `enableChannel` (declared outside the given
sources) moves the channel to `Idle` and reports success (status 1). -/
def enableChannel (_ : ChannelState) : ChannelState × Nat :=
  (ChannelState.Idle, 1)

/-- Model of the `AUDIO_CMD_RESET` case of `vdu_sys_audio`
(`vdu_audio.h` lines 191-203): an enabled channel is killed and
re-enabled and the enable status is sent; a disabled channel is left
alone and status 0 is sent.  Returns (new state, status sent). -/
def audioCmdReset (st : ChannelState) : ChannelState × Nat :=
  if channelEnabled st then
    let st1 := audioTaskKill st
    enableChannel st1
  else
    (st, 0)

/-- Split a byte list into consecutive units of `unitSize` bytes
(helper for the model of `reverseValues`). -/
def groupUnits (unitSize : Nat) : List Nat → List (List Nat)
  | [] => []
  | a :: t =>
    if unitSize = 0 then [a :: t]
    else ((a :: t).take unitSize) :: groupUnits unitSize ((a :: t).drop unitSize)
termination_by l => l.length
decreasing_by
  simp only [List.length_drop, List.length_cons]
  omega

/-- Modelled from the spec: `reverseValues` (declared outside the given
sources) reverses the order of `valueSize`-sized units within the given
byte list, keeping each unit's internal byte order. -/
def reverseValues (valueSize : Nat) (data : List Nat) : List Nat :=
  ((groupUnits valueSize data).reverse).flatten

/-- Resolution of the value size in `bufferReverse`: an explicit word
when `REVERSE_SIZE` is set, else 4 / 2 / 1 bytes. -/
def reverseValueSize (useSize use32Bit use16Bit : Bool) (stream : List Nat) :
    Option (Nat × List Nat) :=
  if useSize then readWord_t stream
  else if use32Bit then some (4, stream)
  else if use16Bit then some (2, stream)
  else some (1, stream)

/-- Resolution of the chunk size in `bufferReverse`: an explicit word
when `REVERSE_CHUNKED` is set, else 0 (no chunking). -/
def reverseChunkSize (useChunks : Bool) (stream : List Nat) :
    Option (Nat × List Nat) :=
  if useChunks then readWord_t stream else some (0, stream)

/-- Model of `bufferReverse` (`vdu_buffered.h` lines 944-1020): decode
the options byte, read the explicit value size and chunk size when
their flag bits are set, verify that every block's size is a multiple
of both, and only then reverse the value units within each block (or
within each chunk of each block), finally reversing block order when
requested.  Flag bit positions are modelled from the spec (the header
defining the constants is not among the sources): bit 0 `REVERSE_16BIT`,
bit 1 `REVERSE_32BIT` (both set meaning `REVERSE_SIZE`), bit 2
`REVERSE_CHUNKED`, bit 3 `REVERSE_BLOCK`. -/
def bufferReverse (store : BufferStore) (bufferId : Nat) (options : Nat)
    (stream : List Nat) : BufferStore :=
  match store bufferId with
  | none => store
  | some buffer =>
    let use16Bit : Bool := options &&& 1 != 0
    let use32Bit : Bool := options &&& 2 != 0
    let useSize : Bool := options &&& 3 == 3
    let useChunks : Bool := options &&& 4 != 0
    let reverseBlocks : Bool := options &&& 8 != 0
    match reverseValueSize useSize use32Bit use16Bit stream with
    | none => store
    | some (valueSize, s1) =>
      match reverseChunkSize useChunks s1 with
      | none => store
      | some (chunkSize, _) =>
        if buffer.any (fun block =>
            (block.size % valueSize != 0) ||
              (chunkSize != 0 && block.size % chunkSize != 0)) then
          store
        else
          let buffer := buffer.map (fun block =>
            if chunkSize = 0 then
              { block with data := reverseValues valueSize block.data }
            else
              { block with data :=
                  ((groupUnits chunkSize block.data).map
                    (reverseValues valueSize)).flatten })
          let buffer := if reverseBlocks then buffer.reverse else buffer
          setStore store bufferId (some buffer)

/-- Modelled from the spec: `resolveBufferId` (declared outside the
given sources) maps the sentinel 65535 to the buffer currently being
executed, failing (`-1` in the code) when the top-level interpreter is
asked to resolve the sentinel; any other id resolves to itself. -/
def resolveBufferId (bufferId : Nat) (currentId : Nat) : Option Nat :=
  if bufferId = 65535 then
    if currentId = 65535 then none else some currentId
  else some bufferId

/-- Modelled from the spec: a `MultiBufferStream`
(`multi_buffer_stream.h` is not among the sources) reads through a
buffer's block list in order; its position is a block index and an
offset within that block. -/
structure MultiBufferStream where
  streams : List BufferStream
  blockOffset : Nat
  blockIndex : Nat
deriving DecidableEq, Repr

/-- Modelled from the spec: `seekTo` repositions the stream. -/
def MultiBufferStream.seekTo (s : MultiBufferStream) (blockOffset blockIndex : Nat) :
    MultiBufferStream :=
  { s with blockOffset := blockOffset, blockIndex := blockIndex }

/-- Modelled from the spec: `available` counts the bytes left to read
from the current position to the end of the block list. -/
def MultiBufferStream.available (s : MultiBufferStream) : Nat :=
  ((s.streams.drop s.blockIndex).map BufferStream.size).sum - s.blockOffset

/-- A fresh `MultiBufferStream` over a block list, seeked to the given
offset when it is non-zero - the construction both `bufferCall` and
`bufferJump` perform. -/
def mkMultiBufferStream (streams : List BufferStream) (offset : AdvancedOffset) :
    MultiBufferStream :=
  let m : MultiBufferStream := ⟨streams, 0, 0⟩
  if offset.blockOffset ≠ 0 ∨ offset.blockIndex ≠ 0 then
    m.seekTo offset.blockOffset offset.blockIndex
  else m

/-- The interpreter state seen by `bufferCall` / `bufferJump`: the id
of the buffer being executed (65535 at top level), the input stream,
and the buffer store. -/
structure VDPState where
  id : Nat
  inputStream : MultiBufferStream
  buffers : BufferStore

/-- The effect of creating a nested `VDUStreamProcessor` over a stream
and draining it (`processAllAvailable`), abstracted as an oracle: the
claims below only concern paths on which it is never invoked. -/
abbrev NestedRun := VDPState → Nat → MultiBufferStream → VDPState

/-- The non-top-level body of `bufferJump` (`vdu_buffered.h` lines
696-713): the sentinel or the current id seek the existing input
stream in place; any other id replaces the input stream with a fresh
one over that buffer when it exists. -/
def bufferJumpAux (st : VDPState) (bufferId : Nat) (offset : AdvancedOffset) : VDPState :=
  if bufferId = 65535 ∨ bufferId = st.id then
    { st with inputStream := st.inputStream.seekTo offset.blockOffset offset.blockIndex }
  else
    match st.buffers bufferId with
    | none => st
    | some streams => { st with inputStream := mkMultiBufferStream streams offset }

/-- Model of `bufferCall` (`vdu_buffered.h` lines 237-265): resolve the
id, require the buffer to exist, tail-call-optimise into a jump when
nested with an exhausted input stream, and otherwise run a nested
processor over a fresh stream (the `runNested` oracle). -/
def bufferCall (runNested : NestedRun) (st : VDPState) (callBufferId : Nat)
    (offset : AdvancedOffset) : VDPState :=
  match resolveBufferId callBufferId st.id with
  | none => st
  | some bufferId =>
    match st.buffers bufferId with
    | none => st
    | some streams =>
      if st.id ≠ 65535 ∧ st.inputStream.available = 0 then
        bufferJumpAux st bufferId offset
      else
        runNested st bufferId (mkMultiBufferStream streams offset)

/-- Model of `bufferJump` (`vdu_buffered.h` lines 689-714): the
top-level interpreter cannot jump and degrades to a call; otherwise
the non-top-level body `bufferJumpAux` runs. -/
def bufferJump (runNested : NestedRun) (st : VDPState) (bufferId : Nat)
    (offset : AdvancedOffset) : VDPState :=
  if st.id = 65535 then bufferCall runNested st bufferId offset
  else bufferJumpAux st bufferId offset

/-- Modelled from the spec: the ADJUST command-byte layout (the header
defining the constants is not among the sources).  Bits 0-2 hold the
operation; the flag bits follow in the order the spec lists them. -/
def ADJUST_OP_MASK : Nat := 7

/-- Flag bit: offsets are 24-bit with optional block-index extension. -/
def ADJUST_ADVANCED_OFFSETS : Nat := 8

/-- Flag bit: the operand is drawn from another buffer. -/
def ADJUST_BUFFER_VALUE : Nat := 16

/-- Flag bit: apply to `count` consecutive target bytes. -/
def ADJUST_MULTI_TARGET : Nat := 32

/-- Flag bit: consume `count` operand bytes. -/
def ADJUST_MULTI_OPERAND : Nat := 64

/-- The ADJUST operation codes, in the spec's order. -/
def ADJUST_NEG : Nat := 1

/-- The add-with-carry ADJUST operation code. -/
def ADJUST_ADD_CARRY : Nat := 4

/-- Model of `getOffsetFromStream` (`vdu_buffered.h` lines 342-360):
a plain offset is one word; an advanced offset is 24 bits, and when
bit 23 is set a block index word follows and bit 23 is masked off. -/
def getOffsetFromStream (isAdvanced : Bool) (s : List Nat) :
    Option (AdvancedOffset × List Nat) :=
  if isAdvanced then
    match read24_t s with
    | none => none
    | some (v, s1) =>
      if v &&& 8388608 ≠ 0 then
        match readWord_t s1 with
        | none => none
        | some (idx, s2) => some (⟨v &&& 8388607, idx⟩, s2)
      else some (⟨v, 0⟩, s1)
  else
    match readWord_t s with
    | none => none
    | some (v, s1) => some (⟨v, 0⟩, s1)

/-- Truncation to a byte, as the source's cast to `uint8_t`. -/
def toByte (v : Int) : Nat := (v % 256).toNat

/-- One ADJUST operation applied to the current source, operand and
carry values (`vdu_buffered.h` lines 519-554).  Returns the new source
value, the new carry value, and whether the carry mechanism was used
(only the add-with-carry case sets it). -/
def applyAdjustOp (op : Nat) (sourceValue operandValue carryValue : Int) :
    Int × Int × Bool :=
  if op = 0 then (-sourceValue - 1, carryValue, false)
  else if op = 1 then (-sourceValue, carryValue, false)
  else if op = 2 then (operandValue, carryValue, false)
  else if op = 3 then (sourceValue + operandValue, carryValue, false)
  else if op = 4 then
    let s := sourceValue + operandValue + carryValue
    if s > 255 then (s - 256, 1, true) else (s, 0, true)
  else if op = 5 then
    (((sourceValue.toNat &&& operandValue.toNat : Nat) : Int), carryValue, false)
  else if op = 6 then
    (((sourceValue.toNat ||| operandValue.toNat : Nat) : Int), carryValue, false)
  else if op = 7 then
    (((sourceValue.toNat ^^^ operandValue.toNat : Nat) : Int), carryValue, false)
  else (sourceValue, carryValue, false)

/-- The state threaded through the ADJUST loop: the (partially
mutated) target buffer, the target and operand offsets, the remaining
input stream, the in-band `-1`-capable source and operand values, the
carry, whether add-with-carry ran, and whether the loop is still on
its success path (`ok = false` models the source's early `return`,
which leaves mutations already made in place). -/
structure AdjustLoopState where
  buffer : Buffer
  offset : AdvancedOffset
  operandOffset : AdvancedOffset
  stream : List Nat
  sourceValue : Int
  operandValue : Int
  carryValue : Int
  usingCarry : Bool
  ok : Bool
deriving DecidableEq, Repr

/-- The body of the ADJUST loop (`vdu_buffered.h` lines 506-563), run
`count` times: re-read the source byte when multi-target, fetch the
next operand when multi-operand, abort when either is `-1`, apply the
operation, and write the result back (advancing the offset) when
multi-target. -/
def adjustLoop (op : Nat) (useMultiTarget useMultiOperand hasOperand : Bool)
    (operandBuffer : Option Buffer) : Nat → AdjustLoopState → AdjustLoopState
  | 0, st => st
  | Nat.succ n, st =>
    let st :=
      if useMultiTarget then
        let r := getBufferByte st.buffer st.offset
        { st with sourceValue := r.1, offset := r.2 }
      else st
    let st :=
      if hasOperand && useMultiOperand then
        match operandBuffer with
        | some ob =>
          let r := getBufferByte ob st.operandOffset true
          { st with operandValue := r.1, operandOffset := r.2 }
        | none =>
          match readByte_t st.stream with
          | none => { st with operandValue := -1 }
          | some (b, s1) => { st with operandValue := (b : Int), stream := s1 }
      else st
    if st.sourceValue = -1 ∨ st.operandValue = -1 then
      { st with ok := false }
    else
      let r := applyAdjustOp op st.sourceValue st.operandValue st.carryValue
      let st := { st with sourceValue := r.1, carryValue := r.2.1,
                          usingCarry := st.usingCarry || r.2.2 }
      if useMultiTarget then
        match setBufferByte (toByte st.sourceValue) st.buffer st.offset true with
        | (none, o) => { st with offset := o, ok := false }
        | (some buf, o) =>
          adjustLoop op useMultiTarget useMultiOperand hasOperand operandBuffer n
            { st with buffer := buf, offset := o }
      else
        adjustLoop op useMultiTarget useMultiOperand hasOperand operandBuffer n st

/-- The operand-buffer lookup of `bufferAdjust` (`vdu_buffered.h`
lines 449-462): when a buffer-sourced operand is in use, read and
resolve the operand buffer id and its offset; any failure aborts the
command before it mutates anything (`none`). -/
def adjustOperandBuffer (store : BufferStore) (currentId : Nat)
    (useBufferValue hasOperand useAdvancedOffsets : Bool) (s : List Nat) :
    Option (Option Buffer × AdvancedOffset × List Nat) :=
  if useBufferValue && hasOperand then
    match readWord_t s with
    | none => none
    | some (w, t1) =>
      match resolveBufferId w currentId with
      | none => none
      | some obid =>
        match getOffsetFromStream useAdvancedOffsets t1 with
        | none => none
        | some (oo, t2) =>
          match store obid with
          | none => none
          | some ob => some (some ob, oo, t2)
  else some (none, ⟨0, 0⟩, s)

/-- The writes performed after the ADJUST loop (`vdu_buffered.h` lines
564-578): for a single target, write the accumulated value (advancing
the offset); then, if add-with-carry ran, write the final carry byte
at the next position - a failing write returns early, keeping the
mutations already made. -/
def adjustFinish (useMultiTarget : Bool) (fin : AdjustLoopState) : Buffer :=
  if !fin.ok then fin.buffer
  else if useMultiTarget then
    if fin.usingCarry then
      match setBufferByte (toByte fin.carryValue) fin.buffer fin.offset with
      | (none, _) => fin.buffer
      | (some buf, _) => buf
    else fin.buffer
  else
    match setBufferByte (toByte fin.sourceValue) fin.buffer fin.offset true with
    | (none, _) => fin.buffer
    | (some buf, o) =>
      if fin.usingCarry then
        match setBufferByte (toByte fin.carryValue) buf o with
        | (none, _) => buf
        | (some buf2, _) => buf2
      else buf

/-- Model of `bufferAdjust` (`vdu_buffered.h` lines 429-581): decode
the command byte, read offset, count and operand-buffer arguments,
resolve and look up the target buffer, perform the singular pre-loop
reads, run the loop and the final writes.  All abort paths before the
first write return the store unchanged; later aborts keep the
mutations already made.  The model returns the resulting store (the
stream position after the command is not modelled; an operand buffer
is captured at lookup time, observably different from the source only
when it aliases the target buffer, which no claim exercises). -/
def bufferAdjust (store : BufferStore) (currentId : Nat) (adjustBufferId : Nat)
    (stream : List Nat) : BufferStore :=
  match readByte_t stream with
  | none => store
  | some (command, s0) =>
    let useAdvancedOffsets : Bool := command &&& ADJUST_ADVANCED_OFFSETS != 0
    let useBufferValue : Bool := command &&& ADJUST_BUFFER_VALUE != 0
    let useMultiTarget : Bool := command &&& ADJUST_MULTI_TARGET != 0
    let useMultiOperand : Bool := command &&& ADJUST_MULTI_OPERAND != 0
    let op := command &&& ADJUST_OP_MASK
    let hasOperand : Bool := ADJUST_NEG < op
    match getOffsetFromStream useAdvancedOffsets s0 with
    | none => store
    | some (offset, s1) =>
      match (if useMultiTarget || useMultiOperand then
              (if useAdvancedOffsets then read24_t s1 else readWord_t s1)
            else some (1, s1)) with
      | none => store
      | some (count, s2) =>
        match adjustOperandBuffer store currentId useBufferValue hasOperand
            useAdvancedOffsets s2 with
        | none => store
        | some (operandBuffer, operandOffset, s3) =>
          match resolveBufferId adjustBufferId currentId with
          | none => store
          | some bufferId =>
            match store bufferId with
            | none => store
            | some buffer =>
              let init0 : AdjustLoopState :=
                { buffer := buffer, offset := offset, operandOffset := operandOffset,
                  stream := s3, sourceValue := 0, operandValue := 0,
                  carryValue := 0, usingCarry := false, ok := true }
              let init1 :=
                if !useMultiTarget then
                  let r := getBufferByte buffer offset
                  { init0 with sourceValue := r.1, offset := r.2 }
                else init0
              let init2 :=
                if hasOperand && !useMultiOperand then
                  match operandBuffer with
                  | some ob =>
                    let r := getBufferByte ob init1.operandOffset
                    { init1 with operandValue := r.1, operandOffset := r.2 }
                  | none =>
                    match readByte_t init1.stream with
                    | none => { init1 with operandValue := -1 }
                    | some (b, t) =>
                      { init1 with operandValue := (b : Int), stream := t }
                else init1
              let fin := adjustLoop op useMultiTarget useMultiOperand hasOperand
                operandBuffer count init2
              setStore store bufferId (some (adjustFinish useMultiTarget fin))

/-- Modelled from the spec: the sample-id base into which negative
sample numbers are translated (the header with the constant is not
among the sources; the exact value does not affect the theorems). -/
def BUFFERED_SAMPLE_BASEID : Nat := 64256

/-- Modelled from the spec: the waveform sentinel after which an
explicit sample number follows (value immaterial to the theorems). -/
def AUDIO_WAVE_SAMPLE : Nat := 8

/-- Modelled from the spec: format flag bit - the sample-creation
payload carries an explicit sample rate (value immaterial). -/
def AUDIO_FORMAT_WITH_RATE : Nat := 16

/-- Modelled from the spec: bit 7 of the parameter byte selects a
16-bit value for `SET_PARAM`. -/
def AUDIO_PARAM_16BIT : Nat := 128

/-- Modelled from the spec: the engine's default sample rate (value
immaterial to the theorems). -/
def AUDIO_DEFAULT_SAMPLE_RATE : Nat := 16384

/-- Modelled from the spec: the sample debug-info action code (the
action is absent from the spec's table; the value is immaterial to the
theorems because the claim treats SAMPLE actions separately). -/
def AUDIO_SAMPLE_DEBUG_INFO : Nat := 16

/-- Conversion of a byte to a signed 8-bit value, as the source's
`(int8_t)` cast. -/
def toInt8 (b : Nat) : Int :=
  if b % 256 < 128 then ((b % 256 : Nat) : Int) else ((b % 256 : Nat) : Int) - 256

/-- The sample number derived from the channel byte of a SAMPLE
command: `BUFFERED_SAMPLE_BASEID + (-(int8_t)channel - 1)` in 16-bit
arithmetic. -/
def sampleNumFromChannel (channel : Nat) : Nat :=
  (((BUFFERED_SAMPLE_BASEID : Int) + (-(toInt8 channel) - 1)) % 65536).toNat

/-- One audio status packet: the `[channel, status]` payload of a
`PACKET_AUDIO` message. -/
abbrev AudioPacket := Nat × Nat

/-- Model of `sendAudioStatus` (`vdu_audio.h` lines 235-241): emit one
audio status packet with the channel and status bytes. -/
def sendAudioStatus (channel status : Nat) : List AudioPacket :=
  [(channel % 256, status % 256)]

/-- The processor's collaborators for audio commands, abstracted as an
environment: each field is the status returned by the corresponding
channel/sample operation (their internal state is not needed for the
packet-emission claims). -/
structure AudioEnv where
  playNote : Nat → Nat → Nat → Nat → Nat
  getChannelStatus : Nat → Nat
  setVolume : Nat → Nat → Nat
  setFrequency : Nat → Nat → Nat
  setWaveform : Nat → Int → Nat → Nat
  loadSample : Nat → Nat → Nat
  clearSample : Nat → Nat
  createSampleFromBuffer : Nat → Nat → Nat → Nat
  setSampleFrequency : Nat → Nat → Nat
  setSampleRepeatStart : Nat → Nat → Nat
  setSampleRepeatLength : Nat → Nat → Nat
  channelEnabled : Nat → Bool
  setVolumeEnvelopeResult : Nat → Nat
  setFrequencyEnvelopeResult : Nat → Nat
  enableChannel : Nat → Nat
  disableChannel : Nat → Nat
  seekTo : Nat → Nat → Nat
  setDuration : Nat → Nat → Nat
  setSampleRate : Nat → Nat → Nat
  setParameterResult : Nat → Nat → Nat → Nat

/-- Model of `setParameter` (`vdu_audio.h` lines 387-392): forward to
the channel when enabled, else status 0. -/
def setParameter (env : AudioEnv) (channel param value : Nat) : Nat :=
  if env.channelEnabled channel then env.setParameterResult channel param value
  else 0

/-- The sub-phase reads of the multi-phase ADSR envelope: `count`
pairs of a level byte and a duration word. -/
def readVolumeSubPhases : Nat → List Nat → Option (List Nat)
  | 0, s => some s
  | Nat.succ n, s =>
    match readByte_t s with
    | none => none
    | some (_, s1) =>
      match readWord_t s1 with
      | none => none
      | some (_, s2) => readVolumeSubPhases n s2

/-- The `getPhases` helper of `setVolumeEnvelope` (`vdu_audio.h` lines
296-304): a count byte followed by that many sub-phases. -/
def getPhases (s : List Nat) : Option (List Nat) :=
  match readByte_t s with
  | none => none
  | some (count, s1) => readVolumeSubPhases count s1

/-- Model of `setVolumeEnvelope` (`vdu_audio.h` lines 280-317).
Envelope type codes are modelled from the spec: 0 none, 1 ADSR,
2 multi-phase ADSR.  Any read failure or unknown type yields status 0;
a successful parse yields the channel's status. -/
def setVolumeEnvelope (env : AudioEnv) (channel typ : Nat) (s : List Nat) : Nat :=
  if env.channelEnabled channel then
    if typ = 0 then env.setVolumeEnvelopeResult channel
    else if typ = 1 then
      match readWord_t s with
      | none => 0
      | some (_, s1) =>
        match readWord_t s1 with
        | none => 0
        | some (_, s2) =>
          match readByte_t s2 with
          | none => 0
          | some (_, s3) =>
            match readWord_t s3 with
            | none => 0
            | some _ => env.setVolumeEnvelopeResult channel
    else if typ = 2 then
      match getPhases s with
      | none => 0
      | some s1 =>
        match getPhases s1 with
        | none => 0
        | some s2 =>
          match getPhases s2 with
          | none => 0
          | some _ => env.setVolumeEnvelopeResult channel
    else 0
  else 0

/-- The step-phase reads of the stepped frequency envelope: `count`
pairs of an adjustment word and a number word. -/
def readFreqStepPhases : Nat → List Nat → Option (List Nat)
  | 0, s => some s
  | Nat.succ n, s =>
    match readWord_t s with
    | none => none
    | some (_, s1) =>
      match readWord_t s1 with
      | none => none
      | some (_, s2) => readFreqStepPhases n s2

/-- Model of `setFrequencyEnvelope` (`vdu_audio.h` lines 321-347).
Envelope type codes modelled from the spec: 0 none, 1 stepped. -/
def setFrequencyEnvelope (env : AudioEnv) (channel typ : Nat) (s : List Nat) : Nat :=
  if env.channelEnabled channel then
    if typ = 0 then env.setFrequencyEnvelopeResult channel
    else if typ = 1 then
      match readByte_t s with
      | none => 0
      | some (phaseCount, s1) =>
        match readByte_t s1 with
        | none => 0
        | some (_, s2) =>
          match readWord_t s2 with
          | none => 0
          | some (_, s3) =>
            match readFreqStepPhases phaseCount s3 with
            | none => 0
            | some _ => env.setFrequencyEnvelopeResult channel
    else 0
  else 0

/-- The PLAY case: volume byte, frequency word, duration word. -/
def audioPlay (env : AudioEnv) (ch : Nat) (rest : List Nat) : List AudioPacket :=
  match readByte_t rest with
  | none => []
  | some (volume, r1) =>
    match readWord_t r1 with
    | none => []
    | some (frequency, r2) =>
      match readWord_t r2 with
      | none => []
      | some (duration, _) =>
        sendAudioStatus ch (env.playNote ch volume frequency duration)

/-- The STATUS case: no payload. -/
def audioStatusCmd (env : AudioEnv) (ch : Nat) : List AudioPacket :=
  sendAudioStatus ch (env.getChannelStatus ch)

/-- The VOLUME case: one volume byte. -/
def audioVolume (env : AudioEnv) (ch : Nat) (rest : List Nat) : List AudioPacket :=
  match readByte_t rest with
  | none => []
  | some (volume, _) => sendAudioStatus ch (env.setVolume ch volume)

/-- The FREQUENCY case: one frequency word. -/
def audioFrequency (env : AudioEnv) (ch : Nat) (rest : List Nat) : List AudioPacket :=
  match readWord_t rest with
  | none => []
  | some (frequency, _) => sendAudioStatus ch (env.setFrequency ch frequency)

/-- The WAVEFORM case: a waveform byte, plus an explicit sample number
word when the waveform is the sample sentinel; the waveform byte is
interpreted as signed. -/
def audioWaveform (env : AudioEnv) (ch : Nat) (rest : List Nat) : List AudioPacket :=
  match readByte_t rest with
  | none => []
  | some (waveform, r1) =>
    if waveform = AUDIO_WAVE_SAMPLE then
      match readWord_t r1 with
      | none => []
      | some (sampleNum, _) =>
        sendAudioStatus ch (env.setWaveform ch (toInt8 waveform) sampleNum)
    else
      sendAudioStatus ch (env.setWaveform ch (toInt8 waveform) 0)

/-- The SAMPLE case (`vdu_audio.h` lines 70-167): dispatch on the
action byte.  Action codes 0-8 are modelled from the spec's ordered
list; the debug-info action reads its buffer id and emits nothing;
unknown actions emit status 0. -/
def audioSampleCmd (env : AudioEnv) (ch : Nat) (rest : List Nat) : List AudioPacket :=
  match readByte_t rest with
  | none => []
  | some (action, r1) =>
    let sampleNum := sampleNumFromChannel ch
    if action = 0 then
      match read24_t r1 with
      | none => []
      | some (length, _) => sendAudioStatus ch (env.loadSample sampleNum length)
    else if action = 1 then
      sendAudioStatus ch (env.clearSample sampleNum)
    else if action = 2 then
      match readWord_t r1 with
      | none => []
      | some (bufferId, r2) =>
        match readByte_t r2 with
        | none => []
        | some (format, r3) =>
          if format &&& AUDIO_FORMAT_WITH_RATE ≠ 0 then
            match readWord_t r3 with
            | none => []
            | some (rate, _) =>
              sendAudioStatus ch (env.createSampleFromBuffer bufferId format rate)
          else
            sendAudioStatus ch
              (env.createSampleFromBuffer bufferId format AUDIO_DEFAULT_SAMPLE_RATE)
    else if action = 3 then
      match readWord_t r1 with
      | none => []
      | some (frequency, _) =>
        sendAudioStatus ch (env.setSampleFrequency sampleNum frequency)
    else if action = 4 then
      match readWord_t r1 with
      | none => []
      | some (bufferId, r2) =>
        match readWord_t r2 with
        | none => []
        | some (frequency, _) =>
          sendAudioStatus ch (env.setSampleFrequency bufferId frequency)
    else if action = 5 then
      match read24_t r1 with
      | none => []
      | some (repeatStart, _) =>
        sendAudioStatus ch (env.setSampleRepeatStart sampleNum repeatStart)
    else if action = 6 then
      match readWord_t r1 with
      | none => []
      | some (bufferId, r2) =>
        match read24_t r2 with
        | none => []
        | some (repeatStart, _) =>
          sendAudioStatus ch (env.setSampleRepeatStart bufferId repeatStart)
    else if action = 7 then
      match read24_t r1 with
      | none => []
      | some (repeatLength, _) =>
        sendAudioStatus ch (env.setSampleRepeatLength sampleNum repeatLength)
    else if action = 8 then
      match readWord_t r1 with
      | none => []
      | some (bufferId, r2) =>
        match read24_t r2 with
        | none => []
        | some (repeatLength, _) =>
          sendAudioStatus ch (env.setSampleRepeatLength bufferId repeatLength)
    else if action = AUDIO_SAMPLE_DEBUG_INFO then
      match readWord_t r1 with
      | none => []
      | some _ => []
    else
      sendAudioStatus ch 0

/-- The ENV_VOLUME case: a type byte, then the envelope payload; the
payload parse happens inside `setVolumeEnvelope`, whose failures are
reported as status 0 rather than suppressing the packet. -/
def audioEnvVolume (env : AudioEnv) (ch : Nat) (rest : List Nat) : List AudioPacket :=
  match readByte_t rest with
  | none => []
  | some (typ, r1) => sendAudioStatus ch (setVolumeEnvelope env ch typ r1)

/-- The ENV_FREQUENCY case, analogous to ENV_VOLUME. -/
def audioEnvFrequency (env : AudioEnv) (ch : Nat) (rest : List Nat) : List AudioPacket :=
  match readByte_t rest with
  | none => []
  | some (typ, r1) => sendAudioStatus ch (setFrequencyEnvelope env ch typ r1)

/-- The RESET case (`vdu_audio.h` lines 191-203): an enabled channel
is killed (no packet) and re-enabled, sending the enable status; a
disabled channel just gets status 0. -/
def audioResetCase (env : AudioEnv) (ch : Nat) : List AudioPacket :=
  if env.channelEnabled ch then sendAudioStatus ch (env.enableChannel ch)
  else sendAudioStatus ch 0

/-- The SEEK case: a 24-bit position. -/
def audioSeek (env : AudioEnv) (ch : Nat) (rest : List Nat) : List AudioPacket :=
  match read24_t rest with
  | none => []
  | some (position, _) => sendAudioStatus ch (env.seekTo ch position)

/-- The DURATION case: a 24-bit duration. -/
def audioDuration (env : AudioEnv) (ch : Nat) (rest : List Nat) : List AudioPacket :=
  match read24_t rest with
  | none => []
  | some (duration, _) => sendAudioStatus ch (env.setDuration ch duration)

/-- The SAMPLERATE case: a rate word. -/
def audioSampleRate (env : AudioEnv) (ch : Nat) (rest : List Nat) : List AudioPacket :=
  match readWord_t rest with
  | none => []
  | some (rate, _) => sendAudioStatus ch (env.setSampleRate ch rate)

/-- The SET_PARAM case: a parameter byte, then a byte or word value
depending on bit 7 of the parameter. -/
def audioSetParam (env : AudioEnv) (ch : Nat) (rest : List Nat) : List AudioPacket :=
  match readByte_t rest with
  | none => []
  | some (param, r1) =>
    if param &&& AUDIO_PARAM_16BIT ≠ 0 then
      match readWord_t r1 with
      | none => []
      | some (value, _) => sendAudioStatus ch (setParameter env ch param value)
    else
      match readByte_t r1 with
      | none => []
      | some (value, _) => sendAudioStatus ch (setParameter env ch param value)

/-- The command dispatch of `vdu_sys_audio` (`vdu_audio.h` lines
31-230), after the channel and command bytes have been read.  Command
codes are modelled from the spec's table (0 PLAY ... 14 SET_PARAM);
the switch has no default, so unknown commands emit nothing. -/
def audioDispatch (env : AudioEnv) (ch cmd : Nat) (rest : List Nat) : List AudioPacket :=
  if cmd = 0 then audioPlay env ch rest
  else if cmd = 1 then audioStatusCmd env ch
  else if cmd = 2 then audioVolume env ch rest
  else if cmd = 3 then audioFrequency env ch rest
  else if cmd = 4 then audioWaveform env ch rest
  else if cmd = 5 then audioSampleCmd env ch rest
  else if cmd = 6 then audioEnvVolume env ch rest
  else if cmd = 7 then audioEnvFrequency env ch rest
  else if cmd = 8 then sendAudioStatus ch (env.enableChannel ch)
  else if cmd = 9 then sendAudioStatus ch (env.disableChannel ch)
  else if cmd = 10 then audioResetCase env ch
  else if cmd = 11 then audioSeek env ch rest
  else if cmd = 12 then audioDuration env ch rest
  else if cmd = 13 then audioSampleRate env ch rest
  else if cmd = 14 then audioSetParam env ch rest
  else []

/-- Model of `vdu_sys_audio` (`vdu_audio.h` lines 27-231): read the
channel and command bytes, then dispatch; the result is the list of
audio status packets emitted while processing the one command. -/
def vduSysAudio (env : AudioEnv) (s : List Nat) : List AudioPacket :=
  match readByte_t s with
  | none => []
  | some (channel, s1) =>
    match readByte_t s1 with
    | none => []
    | some (command, rest) => audioDispatch env channel command rest

/-- The audio commands other than SAMPLE that the source knows (the
spec's table without code 5). -/
abbrev knownNonSampleAudioCmd (cmd : Nat) : Prop :=
  cmd ∈ ([0, 1, 2, 3, 4, 6, 7, 8, 9, 10, 11, 12, 13, 14] : List Nat)

/-- A concrete audio environment whose operations all succeed with
status 1, used by the concrete-input theorems. -/
def defaultAudioEnv : AudioEnv :=
  { playNote := fun _ _ _ _ => 1
    getChannelStatus := fun _ => 1
    setVolume := fun _ _ => 1
    setFrequency := fun _ _ => 1
    setWaveform := fun _ _ _ => 1
    loadSample := fun _ _ => 1
    clearSample := fun _ => 1
    createSampleFromBuffer := fun _ _ _ => 1
    setSampleFrequency := fun _ _ => 1
    setSampleRepeatStart := fun _ _ => 1
    setSampleRepeatLength := fun _ _ => 1
    channelEnabled := fun _ => true
    setVolumeEnvelopeResult := fun _ => 1
    setFrequencyEnvelopeResult := fun _ => 1
    enableChannel := fun _ => 1
    disableChannel := fun _ => 1
    seekTo := fun _ _ => 1
    setDuration := fun _ _ => 1
    setSampleRate := fun _ _ => 1
    setParameterResult := fun _ _ _ => 1 }

/-- A concrete store whose buffer 5 holds the block `[0xFF, 0, 0]` of
the carry-ADC scenario, used by the concrete-input theorems. -/
def adjustStoreEx : BufferStore :=
  fun i => if i = 5 then some [⟨[255, 0, 0], false⟩] else none

/-- The concrete ADJUST command stream of the carry-ADC scenario:
command byte `ADJUST_MULTI_TARGET + ADJUST_ADD_CARRY`, offset word 0,
count word 3, inline operand byte 1. -/
def adcScenarioStream : List Nat := [36, 0, 0, 3, 0, 1]

/-- A concrete empty store, used by the concrete-input theorems. -/
def emptyStore : BufferStore := fun _ => none

/-- A concrete nested interpreter state with an exhausted input stream
and a buffer at id 3, used by the concrete-input theorems. -/
def vdpStateEx : VDPState :=
  { id := 2
    inputStream := ⟨[], 0, 0⟩
    buffers := fun i => if i = 3 then some [⟨[1], false⟩] else none }

/-- A concrete top-level interpreter state, used by the concrete-input
theorems. -/
def vdpTopStateEx : VDPState :=
  { id := 65535
    inputStream := ⟨[], 0, 0⟩
    buffers := fun _ => none }

/-- The trivial nested-run oracle, used by the concrete-input
theorems. -/
def nestedRunId : NestedRun := fun st _ _ => st

/-- A concrete output-state with a writable buffer at id 2, used by the
concrete-input theorems. -/
def outputStateEx : OutputState :=
  { output := OutStream.none
    originalOutput := OutStream.original
    buffers := fun i => if i = 2 then some [⟨[1], true⟩] else none }

/-- A concrete clear-state holding a buffer at id 7 and a sample at
id 3, used by the concrete-input theorems. -/
def clearStateEx : ClearState :=
  { buffers := fun i => if i = 7 then some [⟨[1, 2], false⟩] else none
    bitmaps := fun _ => none
    samples := fun i => if i = 3 then some ⟨[⟨[9], false⟩]⟩ else none }

/-- A concrete store whose buffer 2 holds one block of three bytes,
used by the concrete-input theorems. -/
def reverseStoreEx : BufferStore :=
  fun i => if i = 2 then some [⟨[1, 2, 3], false⟩] else none

/-- Claim C4: `bufferWrite(id, length)` reads `length` bytes from the
input stream; a partial read returns the positive remaining count and
stores nothing; a successful read returns 0 and, for `id ≠ 65535`,
appends exactly one new block of that length to `buffers[id]`, while
for `id = 65535` the data is silently dropped. -/
theorem bufferWrite_spec (store : BufferStore) (id length : Nat) (stream : List Nat) :
    (stream.length < length →
      bufferWrite store id length stream = (length - stream.length, store) ∧
      0 < length - stream.length) ∧
    (length ≤ stream.length → id = 65535 →
      bufferWrite store id length stream = (0, store)) ∧
    (length ≤ stream.length → id ≠ 65535 →
      (bufferWrite store id length stream).1 = 0 ∧
      (bufferWrite store id length stream).2 id =
        some (((store id).getD []) ++ [⟨stream.take length, false⟩]) ∧
      (stream.take length).length = length ∧
      (∀ j, j ≠ id → (bufferWrite store id length stream).2 j = store j)) := by
  refine ⟨fun h => ?_, fun h1 h2 => ?_, fun h1 h2 => ?_⟩
  · have hp : 0 < length - stream.length := by omega
    refine ⟨?_, hp⟩
    simp [bufferWrite, hp]
  · have hz : length - stream.length = 0 := by omega
    simp [bufferWrite, hz, h2]
  · have hz : length - stream.length = 0 := by omega
    refine ⟨by simp [bufferWrite, hz, h2], ?_, ?_, ?_⟩
    · simp [bufferWrite, hz, h2, setStore]
    · simp [List.length_take]; omega
    · intro j hj
      simp [bufferWrite, hz, h2, setStore, hj]

/-- Concrete run of `bufferWrite_spec`: a 3-byte write against a 1-byte
stream returns remaining 2 and leaves the store alone; a 2-byte write
against a 3-byte stream stores the block `[5, 6]` under id 4. -/
theorem bufferWrite_spec_witness :
    bufferWrite emptyStore 7 3 [1] = (2, emptyStore) ∧
    (bufferWrite emptyStore 4 2 [5, 6, 7]).2 4 = some [⟨[5, 6], false⟩] := by
  constructor
  · exact ((bufferWrite_spec emptyStore 7 3 [1]).1 (by decide)).1
  · exact ((bufferWrite_spec emptyStore 4 2 [5, 6, 7]).2.2 (by decide) (by decide)).2.1

/-- Claim C8: the `BUFFERED_CREATE` command fails, storing nothing and
changing no buffer, when the id is 65535 or already exists; otherwise
it installs exactly one all-zero block of the requested size under the
id, and `bufferCreate` returns that block. -/
theorem bufferCreate_cmd_spec (junk : List Nat) (store : BufferStore)
    (id size : Nat) (stream rest : List Nat)
    (hread : readWord_t stream = some (size, rest)) :
    (id = 65535 →
      bufferCreate junk store id = (none, store) ∧
      vduBufferedCreate junk store id stream = store) ∧
    ((store id).isSome →
      bufferCreate junk store id = (none, store) ∧
      vduBufferedCreate junk store id stream = store) ∧
    (id ≠ 65535 → store id = none →
      bufferCreate junk store id =
        (some ⟨junk, true⟩, setStore store id (some [⟨junk, true⟩])) ∧
      (vduBufferedCreate junk store id stream) id =
        some [⟨List.replicate size 0, true⟩] ∧
      (∀ j, j ≠ id → (vduBufferedCreate junk store id stream) j = store j)) := by
  refine ⟨fun h => ?_, fun h => ?_, fun h1 h2 => ?_⟩
  · simp [bufferCreate, vduBufferedCreate, hread, h]
  · by_cases h65 : id = 65535
    · simp [bufferCreate, vduBufferedCreate, hread, h65]
    · simp [bufferCreate, vduBufferedCreate, hread, h65, h]
  · refine ⟨by simp [bufferCreate, h1, h2], ?_, ?_⟩
    · simp [vduBufferedCreate, hread, bufferCreate, h1, h2, setStore]
    · intro j hj
      simp [vduBufferedCreate, hread, bufferCreate, h1, h2, setStore, hj]

/-- Concrete run of `bufferCreate_cmd_spec`: creating buffer 1 of size
1 from the word stream `[1, 0]` installs the single zero block. -/
theorem bufferCreate_cmd_spec_witness :
    (vduBufferedCreate [7] emptyStore 1 [1, 0]) 1 = some [⟨[0], true⟩] := by
  have h := (bufferCreate_cmd_spec [7] emptyStore 1 1 [1, 0] [] rfl).2.2
    (by decide) rfl
  exact h.2.1

/-- Claim C10: `setOutputStream` treats 65535 as "no output" and 0 as
"restore original output"; any other id redirects output to the first
block of that buffer only when the buffer exists, is non-empty and its
first block is writable, and otherwise leaves the output unchanged. -/
theorem setOutputStream_spec (st : OutputState) (id : Nat) :
    (setOutputStream st 65535 = { st with output := OutStream.none }) ∧
    (setOutputStream st 0 = { st with output := st.originalOutput }) ∧
    (id ≠ 65535 → id ≠ 0 →
      (st.buffers id = none → setOutputStream st id = st) ∧
      (st.buffers id = some [] → setOutputStream st id = st) ∧
      (∀ b bs, st.buffers id = some (b :: bs) →
        (b.writable = true →
          setOutputStream st id = { st with output := OutStream.block b }) ∧
        (b.writable = false → setOutputStream st id = st))) := by
  refine ⟨by simp [setOutputStream], by simp [setOutputStream], fun h1 h2 => ?_⟩
  refine ⟨fun h => ?_, fun h => ?_, fun b bs h => ⟨fun hw => ?_, fun hw => ?_⟩⟩
  · simp [setOutputStream, h1, h2, h]
  · simp [setOutputStream, h1, h2, h]
  · simp [setOutputStream, h1, h2, h, hw]
  · simp [setOutputStream, h1, h2, h, hw]

/-- Concrete run of `setOutputStream_spec`: redirecting to the
writable buffer 2 of `outputStateEx` sets the output to its first
block. -/
theorem setOutputStream_spec_witness :
    setOutputStream outputStateEx 2 =
      { outputStateEx with output := OutStream.block ⟨[1], true⟩ } := by
  have h := ((setOutputStream_spec outputStateEx 2).2.2 (by decide) (by decide)).2.2
    ⟨[1], true⟩ [] rfl
  exact h.1 rfl

/-- Claim C5 as stated is false: after `bufferClear(65535)` the sample
at id 3 of `clearStateEx` is gone (the clear resets the sample store),
so pre-existing samples do not survive the global clear. -/
theorem bufferClear_all_counterexample :
    ¬ (∀ i s, clearStateEx.samples i = some s →
        (bufferClear clearStateEx 65535).samples i = some s) := by
  intro h
  have h3 := h 3 ⟨[⟨[9], false⟩]⟩ (by decide)
  simp [bufferClear, resetSamples] at h3

/-- Claim C5 amended: `bufferClear(65535)` empties the buffer store and
also drops every sample and bitmap (the global clear resets the sample
and bitmap collaborators rather than preserving them). -/
theorem bufferClear_all_amended (st : ClearState) (i : Nat) :
    (bufferClear st 65535).buffers i = none ∧
    (bufferClear st 65535).samples i = none ∧
    (bufferClear st 65535).bitmaps i = none := by
  simp [bufferClear, resetSamples, resetBitmaps]

/-- Claim C9 as stated is false: the RESET audio command leaves a
`Disabled` channel disabled (only status 0 is sent), so it does not
return every state to `Idle`. -/
theorem audioReset_counterexample :
    (audioCmdReset ChannelState.Disabled).1 ≠ ChannelState.Idle := by
  decide

/-- Claim C9 amended: RESET returns every enabled channel state (Idle,
Playing, Releasing) to `Idle` with the enable status; a `Disabled`
channel is left disabled and status 0 is sent. -/
theorem audioReset_amended (st : ChannelState) :
    (st ≠ ChannelState.Disabled → audioCmdReset st = (ChannelState.Idle, 1)) ∧
    (st = ChannelState.Disabled → audioCmdReset st = (ChannelState.Disabled, 0)) := by
  cases st <;> exact ⟨by decide, by decide⟩

/-- Concrete run of `audioReset_amended`: resetting a playing channel
idles it with status 1. -/
theorem audioReset_amended_witness :
    audioCmdReset ChannelState.Playing = (ChannelState.Idle, 1) :=
  (audioReset_amended ChannelState.Playing).1 (by decide)

/-- Claim C6: whenever some block of the target buffer is not a
multiple of the resolved value size, or of a non-zero chunk size,
`bufferReverse` aborts and the store - every block's contents and the
block order - is completely unchanged. -/
theorem bufferReverse_abort_spec (store : BufferStore) (id options : Nat)
    (stream s1 s2 : List Nat) (buffer : Buffer) (valueSize chunkSize : Nat)
    (hbuf : store id = some buffer)
    (hvs : reverseValueSize (options &&& 3 == 3) (options &&& 2 != 0)
      (options &&& 1 != 0) stream = some (valueSize, s1))
    (hcs : reverseChunkSize (options &&& 4 != 0) s1 = some (chunkSize, s2))
    (hbad : ∃ b ∈ buffer,
      b.size % valueSize ≠ 0 ∨ (chunkSize ≠ 0 ∧ b.size % chunkSize ≠ 0)) :
    bufferReverse store id options stream = store := by
  have hany : buffer.any (fun block =>
      (block.size % valueSize != 0) ||
        (chunkSize != 0 && block.size % chunkSize != 0)) = true := by
    obtain ⟨b, hmem, hor⟩ := hbad
    refine List.any_eq_true.mpr ⟨b, hmem, ?_⟩
    rcases hor with h | ⟨h1, h2⟩
    · simp [h]
    · simp [h1, h2]
  simp only [bufferReverse, hbuf, hvs, hcs, hany]
  simp

/-- Concrete run of `bufferReverse_abort_spec`: 16-bit reversal of a
3-byte block aborts and leaves `reverseStoreEx` untouched. -/
theorem bufferReverse_abort_witness :
    bufferReverse reverseStoreEx 2 1 [] = reverseStoreEx := by
  exact bufferReverse_abort_spec reverseStoreEx 2 1 [] [] []
    [⟨[1, 2, 3], false⟩] 2 0 rfl rfl rfl
    ⟨⟨[1, 2, 3], false⟩, by decide, Or.inl (by decide)⟩

/-- Claim C2: when the interpreter is nested (current id is not 65535)
and its input stream has no bytes available, `bufferCall` on a
resolvable, existing target behaves exactly as `bufferJump` on that
target with the same offset. -/
theorem bufferCall_tail_spec (runNested : NestedRun) (st : VDPState)
    (target : Nat) (offset : AdvancedOffset) (r : Nat) (b : Buffer)
    (hid : st.id ≠ 65535) (havail : st.inputStream.available = 0)
    (hres : resolveBufferId target st.id = some r)
    (hbuf : st.buffers r = some b) :
    bufferCall runNested st target offset = bufferJump runNested st target offset := by
  have hlhs : bufferCall runNested st target offset = bufferJumpAux st r offset := by
    simp only [bufferCall, hres, hbuf]
    rw [if_pos ⟨hid, havail⟩]
  have hrhs : bufferJump runNested st target offset = bufferJumpAux st target offset := by
    simp only [bufferJump, if_neg hid]
  rw [hlhs, hrhs]
  by_cases ht : target = 65535
  · have hr : r = st.id := by
      simp [resolveBufferId, ht, hid] at hres
      exact hres.symm
    subst hr
    subst ht
    simp [bufferJumpAux]
  · have hr : r = target := by
      simp [resolveBufferId, ht] at hres
      exact hres.symm
    subst hr
    rfl

/-- Concrete run of `bufferCall_tail_spec`: calling buffer 3 from the
exhausted nested interpreter `vdpStateEx` equals jumping to it. -/
theorem bufferCall_tail_witness :
    bufferCall nestedRunId vdpStateEx 3 ⟨0, 0⟩ =
      bufferJump nestedRunId vdpStateEx 3 ⟨0, 0⟩ :=
  bufferCall_tail_spec nestedRunId vdpStateEx 3 ⟨0, 0⟩ 3 [⟨[1], false⟩]
    (by decide) rfl rfl rfl

/-- Claim C7: `bufferJump` degrades to `bufferCall` at top level; a
target equal to the current id or to 65535 seeks the existing input
stream in place; any other existing target replaces the input stream
with a fresh multi-block stream over that buffer, seeked when the
offset is non-zero. -/
theorem bufferJump_spec (runNested : NestedRun) (st : VDPState)
    (target : Nat) (offset : AdvancedOffset) :
    (st.id = 65535 →
      bufferJump runNested st target offset = bufferCall runNested st target offset) ∧
    (st.id ≠ 65535 → (target = 65535 ∨ target = st.id) →
      bufferJump runNested st target offset =
        { st with inputStream := st.inputStream.seekTo offset.blockOffset offset.blockIndex }) ∧
    (st.id ≠ 65535 → target ≠ 65535 → target ≠ st.id →
      ∀ b, st.buffers target = some b →
        bufferJump runNested st target offset =
          { st with inputStream := mkMultiBufferStream b offset }) := by
  refine ⟨fun h => by simp [bufferJump, h], fun h1 h2 => ?_, fun h1 h2 h3 b hb => ?_⟩
  · simp only [bufferJump, if_neg h1, bufferJumpAux, if_pos h2]
  · simp only [bufferJump, if_neg h1, bufferJumpAux, hb]
    rw [if_neg (by tauto)]

/-- Concrete run of `bufferJump_spec`: jumping to the current buffer id
of `vdpStateEx` seeks the input stream in place. -/
theorem bufferJump_spec_witness :
    bufferJump nestedRunId vdpStateEx 2 ⟨5, 0⟩ =
      { vdpStateEx with inputStream := vdpStateEx.inputStream.seekTo 5 0 } :=
  (bufferJump_spec nestedRunId vdpStateEx 2 ⟨5, 0⟩).2.1 (by decide) (Or.inr rfl)

/-- Claim C3 as stated is false: on buffer 5 = `[0xFF, 0, 0]`, ADJUST
with op ADC, MULTI_TARGET, count 3 and the single inline operand 1
adds the operand to every byte (carry-propagating), so the block
becomes `[0x00, 0x02, 0x01]`, not `[0x00, 0x01, 0x00]`. -/
theorem bufferAdjust_adc_counterexample :
    (bufferAdjust adjustStoreEx 65535 5 adcScenarioStream) 5 ≠
      some [⟨[0, 1, 0], false⟩] := by
  decide

/-- Claim C3 amended: the scenario leaves buffer 5 as the single block
`[0x00, 0x02, 0x01]` (the inline operand is added to each of the three
bytes with carry propagation); the trailing carry write at offset 3
fails because the 3-byte block is too short, so no carry byte is
stored and the block is not extended. -/
theorem bufferAdjust_adc_amended :
    bufferAdjust adjustStoreEx 65535 5 adcScenarioStream =
      setStore adjustStoreEx 5 (some [⟨[0, 2, 1], false⟩]) := by
  rfl

/-- A successful byte read exists whenever the stream is non-empty. -/
theorem readByte_t_len (s : List Nat) (h : 1 ≤ s.length) :
    ∃ b r, readByte_t s = some (b, r) ∧ r.length + 1 = s.length := by
  cases s with
  | nil => simp at h
  | cons a t => exact ⟨a, t, rfl, rfl⟩

/-- A successful word read exists whenever two bytes are available. -/
theorem readWord_t_len (s : List Nat) (h : 2 ≤ s.length) :
    ∃ v r, readWord_t s = some (v, r) ∧ r.length + 2 = s.length := by
  rcases s with _ | ⟨a, _ | ⟨b, t⟩⟩
  · simp at h
  · simp at h
  · exact ⟨a + 256 * b, t, rfl, rfl⟩

/-- A successful 24-bit read exists whenever three bytes are
available. -/
theorem read24_t_len (s : List Nat) (h : 3 ≤ s.length) :
    ∃ v r, read24_t s = some (v, r) ∧ r.length + 3 = s.length := by
  rcases s with _ | ⟨a, _ | ⟨b, _ | ⟨c, t⟩⟩⟩
  · simp at h
  · simp at h
  · simp at h
  · exact ⟨a + 256 * b + 65536 * c, t, rfl, rfl⟩

/-- The PLAY case emits at most one packet. -/
theorem audioPlay_len_le (env : AudioEnv) (ch : Nat) (rest : List Nat) :
    (audioPlay env ch rest).length ≤ 1 := by
  unfold audioPlay
  repeat' split
  all_goals simp [sendAudioStatus]

/-- The VOLUME case emits at most one packet. -/
theorem audioVolume_len_le (env : AudioEnv) (ch : Nat) (rest : List Nat) :
    (audioVolume env ch rest).length ≤ 1 := by
  unfold audioVolume
  repeat' split
  all_goals simp [sendAudioStatus]

/-- The FREQUENCY case emits at most one packet. -/
theorem audioFrequency_len_le (env : AudioEnv) (ch : Nat) (rest : List Nat) :
    (audioFrequency env ch rest).length ≤ 1 := by
  unfold audioFrequency
  repeat' split
  all_goals simp [sendAudioStatus]

set_option maxHeartbeats 2000000 in
/-- The WAVEFORM case emits at most one packet. -/
theorem audioWaveform_len_le (env : AudioEnv) (ch : Nat) (rest : List Nat) :
    (audioWaveform env ch rest).length ≤ 1 := by
  unfold audioWaveform
  repeat' split
  all_goals simp [sendAudioStatus]

set_option maxHeartbeats 2000000 in
/-- The SAMPLE case emits at most one packet. -/
theorem audioSampleCmd_len_le (env : AudioEnv) (ch : Nat) (rest : List Nat) :
    (audioSampleCmd env ch rest).length ≤ 1 := by
  unfold audioSampleCmd
  repeat' split
  all_goals simp [sendAudioStatus]

/-- The ENV_VOLUME case emits at most one packet. -/
theorem audioEnvVolume_len_le (env : AudioEnv) (ch : Nat) (rest : List Nat) :
    (audioEnvVolume env ch rest).length ≤ 1 := by
  unfold audioEnvVolume
  repeat' split
  all_goals simp [sendAudioStatus]

/-- The ENV_FREQUENCY case emits at most one packet. -/
theorem audioEnvFrequency_len_le (env : AudioEnv) (ch : Nat) (rest : List Nat) :
    (audioEnvFrequency env ch rest).length ≤ 1 := by
  unfold audioEnvFrequency
  repeat' split
  all_goals simp [sendAudioStatus]

/-- The RESET case always emits exactly one packet. -/
theorem audioResetCase_len_eq (env : AudioEnv) (ch : Nat) :
    (audioResetCase env ch).length = 1 := by
  unfold audioResetCase
  split <;> simp [sendAudioStatus]

/-- The SEEK case emits at most one packet. -/
theorem audioSeek_len_le (env : AudioEnv) (ch : Nat) (rest : List Nat) :
    (audioSeek env ch rest).length ≤ 1 := by
  unfold audioSeek
  repeat' split
  all_goals simp [sendAudioStatus]

/-- The DURATION case emits at most one packet. -/
theorem audioDuration_len_le (env : AudioEnv) (ch : Nat) (rest : List Nat) :
    (audioDuration env ch rest).length ≤ 1 := by
  unfold audioDuration
  repeat' split
  all_goals simp [sendAudioStatus]

/-- The SAMPLERATE case emits at most one packet. -/
theorem audioSampleRate_len_le (env : AudioEnv) (ch : Nat) (rest : List Nat) :
    (audioSampleRate env ch rest).length ≤ 1 := by
  unfold audioSampleRate
  repeat' split
  all_goals simp [sendAudioStatus]

set_option maxHeartbeats 2000000 in
/-- The SET_PARAM case emits at most one packet. -/
theorem audioSetParam_len_le (env : AudioEnv) (ch : Nat) (rest : List Nat) :
    (audioSetParam env ch rest).length ≤ 1 := by
  unfold audioSetParam
  repeat' split
  all_goals simp [sendAudioStatus]

set_option maxHeartbeats 2000000 in
/-- Every dispatched audio command emits at most one packet. -/
theorem audioDispatch_len_le (env : AudioEnv) (ch cmd : Nat) (rest : List Nat) :
    (audioDispatch env ch cmd rest).length ≤ 1 := by
  rcases cmd with _|_|_|_|_|_|_|_|_|_|_|_|_|_|_|n
  · exact audioPlay_len_le env ch rest
  · exact Nat.le_refl 1
  · exact audioVolume_len_le env ch rest
  · exact audioFrequency_len_le env ch rest
  · exact audioWaveform_len_le env ch rest
  · exact audioSampleCmd_len_le env ch rest
  · exact audioEnvVolume_len_le env ch rest
  · exact audioEnvFrequency_len_le env ch rest
  · exact Nat.le_refl 1
  · exact Nat.le_refl 1
  · exact le_of_eq (audioResetCase_len_eq env ch)
  · exact audioSeek_len_le env ch rest
  · exact audioDuration_len_le env ch rest
  · exact audioSampleRate_len_le env ch rest
  · exact audioSetParam_len_le env ch rest
  · exact Nat.zero_le 1

/-- The PLAY case emits exactly one packet given a full payload. -/
theorem audioPlay_len_eq (env : AudioEnv) (ch : Nat) (rest : List Nat)
    (h : 5 ≤ rest.length) : (audioPlay env ch rest).length = 1 := by
  obtain ⟨v1, r1, hr1, hl1⟩ := readByte_t_len rest (by omega)
  obtain ⟨v2, r2, hr2, hl2⟩ := readWord_t_len r1 (by omega)
  obtain ⟨v3, r3, hr3, hl3⟩ := readWord_t_len r2 (by omega)
  simp [audioPlay, hr1, hr2, hr3, sendAudioStatus]

/-- The VOLUME case emits exactly one packet given its byte. -/
theorem audioVolume_len_eq (env : AudioEnv) (ch : Nat) (rest : List Nat)
    (h : 1 ≤ rest.length) : (audioVolume env ch rest).length = 1 := by
  obtain ⟨v1, r1, hr1, hl1⟩ := readByte_t_len rest (by omega)
  simp [audioVolume, hr1, sendAudioStatus]

/-- The FREQUENCY case emits exactly one packet given its word. -/
theorem audioFrequency_len_eq (env : AudioEnv) (ch : Nat) (rest : List Nat)
    (h : 2 ≤ rest.length) : (audioFrequency env ch rest).length = 1 := by
  obtain ⟨v1, r1, hr1, hl1⟩ := readWord_t_len rest (by omega)
  simp [audioFrequency, hr1, sendAudioStatus]

/-- The WAVEFORM case emits exactly one packet given three bytes. -/
theorem audioWaveform_len_eq (env : AudioEnv) (ch : Nat) (rest : List Nat)
    (h : 3 ≤ rest.length) : (audioWaveform env ch rest).length = 1 := by
  obtain ⟨v1, r1, hr1, hl1⟩ := readByte_t_len rest (by omega)
  by_cases hw : v1 = AUDIO_WAVE_SAMPLE
  · obtain ⟨v2, r2, hr2, hl2⟩ := readWord_t_len r1 (by omega)
    simp [audioWaveform, hr1, hw, hr2, sendAudioStatus]
  · simp [audioWaveform, hr1, hw, sendAudioStatus]

/-- The ENV_VOLUME case emits exactly one packet given its type byte
(the envelope payload parse reports failures as status 0). -/
theorem audioEnvVolume_len_eq (env : AudioEnv) (ch : Nat) (rest : List Nat)
    (h : 1 ≤ rest.length) : (audioEnvVolume env ch rest).length = 1 := by
  obtain ⟨v1, r1, hr1, hl1⟩ := readByte_t_len rest (by omega)
  simp [audioEnvVolume, hr1, sendAudioStatus]

/-- The ENV_FREQUENCY case emits exactly one packet given its type
byte. -/
theorem audioEnvFrequency_len_eq (env : AudioEnv) (ch : Nat) (rest : List Nat)
    (h : 1 ≤ rest.length) : (audioEnvFrequency env ch rest).length = 1 := by
  obtain ⟨v1, r1, hr1, hl1⟩ := readByte_t_len rest (by omega)
  simp [audioEnvFrequency, hr1, sendAudioStatus]

/-- The SEEK case emits exactly one packet given three bytes. -/
theorem audioSeek_len_eq (env : AudioEnv) (ch : Nat) (rest : List Nat)
    (h : 3 ≤ rest.length) : (audioSeek env ch rest).length = 1 := by
  obtain ⟨v1, r1, hr1, hl1⟩ := read24_t_len rest (by omega)
  simp [audioSeek, hr1, sendAudioStatus]

/-- The DURATION case emits exactly one packet given three bytes. -/
theorem audioDuration_len_eq (env : AudioEnv) (ch : Nat) (rest : List Nat)
    (h : 3 ≤ rest.length) : (audioDuration env ch rest).length = 1 := by
  obtain ⟨v1, r1, hr1, hl1⟩ := read24_t_len rest (by omega)
  simp [audioDuration, hr1, sendAudioStatus]

/-- The SAMPLERATE case emits exactly one packet given its word. -/
theorem audioSampleRate_len_eq (env : AudioEnv) (ch : Nat) (rest : List Nat)
    (h : 2 ≤ rest.length) : (audioSampleRate env ch rest).length = 1 := by
  obtain ⟨v1, r1, hr1, hl1⟩ := readWord_t_len rest (by omega)
  simp [audioSampleRate, hr1, sendAudioStatus]

/-- The SET_PARAM case emits exactly one packet given three bytes. -/
theorem audioSetParam_len_eq (env : AudioEnv) (ch : Nat) (rest : List Nat)
    (h : 3 ≤ rest.length) : (audioSetParam env ch rest).length = 1 := by
  obtain ⟨v1, r1, hr1, hl1⟩ := readByte_t_len rest (by omega)
  by_cases hp : v1 &&& AUDIO_PARAM_16BIT ≠ 0
  · obtain ⟨v2, r2, hr2, hl2⟩ := readWord_t_len r1 (by omega)
    simp [audioSetParam, hr1, hp, hr2, sendAudioStatus]
  · obtain ⟨v2, r2, hr2, hl2⟩ := readByte_t_len r1 (by omega)
    simp [audioSetParam, hr1, hp, hr2, sendAudioStatus]

/-- Claim C1 as stated is false: with channel 3 and command PLAY read
successfully but the payload missing, `vdu_sys_audio` returns without
emitting any status packet - not a single status-0 packet. -/
theorem audio_status_counterexample :
    vduSysAudio defaultAudioEnv [3, 0] = [] := rfl

set_option maxHeartbeats 2000000 in
/-- Claim C1 amended: processing one audio command emits at most one
status packet, never more; a known command other than SAMPLE whose
direct payload is fully available emits exactly one; when a top-level
payload read fails the command emits no packet at all (rather than a
status-0 packet). -/
theorem audio_status_amended (env : AudioEnv) (s : List Nat) :
    (vduSysAudio env s).length ≤ 1 ∧
    (∀ ch cmd rest, s = ch :: cmd :: rest → knownNonSampleAudioCmd cmd →
      5 ≤ rest.length → (vduSysAudio env s).length = 1) := by
  constructor
  · unfold vduSysAudio
    repeat' split
    · simp
    · simp
    · apply audioDispatch_len_le
  · intro ch cmd rest hs hk hlen
    subst hs
    show (audioDispatch env ch cmd rest).length = 1
    simp only [knownNonSampleAudioCmd, List.mem_cons, List.not_mem_nil, or_false] at hk
    rcases hk with rfl | rfl | rfl | rfl | rfl | rfl | rfl | rfl | rfl | rfl | rfl | rfl | rfl | rfl
    · exact audioPlay_len_eq env ch rest hlen
    · simp [audioDispatch, audioStatusCmd, sendAudioStatus]
    · exact audioVolume_len_eq env ch rest (by omega)
    · exact audioFrequency_len_eq env ch rest (by omega)
    · exact audioWaveform_len_eq env ch rest (by omega)
    · exact audioEnvVolume_len_eq env ch rest (by omega)
    · exact audioEnvFrequency_len_eq env ch rest (by omega)
    · simp [audioDispatch, sendAudioStatus]
    · simp [audioDispatch, sendAudioStatus]
    · exact audioResetCase_len_eq env ch
    · exact audioSeek_len_eq env ch rest (by omega)
    · exact audioDuration_len_eq env ch rest (by omega)
    · exact audioSampleRate_len_eq env ch rest (by omega)
    · exact audioSetParam_len_eq env ch rest (by omega)

/-- Concrete run of `audio_status_amended`: a complete PLAY command
emits exactly one status packet. -/
theorem audio_status_amended_witness :
    (vduSysAudio defaultAudioEnv [3, 0, 7, 1, 0, 100, 0]).length = 1 :=
  (audio_status_amended defaultAudioEnv [3, 0, 7, 1, 0, 100, 0]).2
    3 0 [7, 1, 0, 100, 0] rfl (by decide) (by decide)
